import Mathlib

/-!
Verification development for the energy monitoring dashboard
(`energy_dashboard_module.py`).

The core of the program is the sample–detect–persist loop:
`read_modbus_data_async` reads five device registers and scales them,
`detect_anomaly` classifies a reading against configured thresholds,
`store_data` appends a row to a SQLite table keyed by timestamp, and
`update_dashboard` runs one acquisition cycle per tick.

Shallow embedding conventions:
- Python floats become exact rationals `ℚ` (all constants in the claims
  are exactly representable and the comparisons coincide).
- The modbus instrument is a function from register address to
  `Option ℕ` (`none` models a raised transport exception).
- The SQLite table is a `List Row` in insertion order; `INSERT` with the
  `timestamp TEXT PRIMARY KEY` constraint either appends or fails with
  an integrity error leaving the table unchanged; the
  `ORDER BY timestamp DESC LIMIT n` query sorts by descending timestamp
  (SQLite compares TEXT lexicographically, as does `String`'s order).
- A raised Python exception that propagates is `Except.error`.
-/

namespace EnergyDashboard

/-- The threshold configuration keys read by the core loop
(`config['anomaly_*']` and `config['refresh_rate']`). -/
structure Config where
  anomaly_voltage_high : ℚ
  anomaly_voltage_low : ℚ
  anomaly_current_high : ℚ
  anomaly_power_high : ℚ
  refresh_rate : ℚ
deriving Repr, DecidableEq

/-- The five scaled measurements returned by a successful
`read_modbus_data_async` call (the tuple at line 62 of the source). -/
structure Reading where
  voltage : ℚ
  current : ℚ
  power_factor : ℚ
  power : ℚ
  energy : ℚ
deriving Repr, DecidableEq

/-- One row of the `readings` table (schema in `create_table`). -/
structure Row where
  timestamp : String
  voltage : ℚ
  current : ℚ
  power_factor : ℚ
  power : ℚ
  energy : ℚ
  anomaly : ℕ
deriving Repr, DecidableEq

/-- `read_modbus_data_async(instrument)`: reads registers 0, 2, 4, 6, 8
in order and scales by 100, 100, 1000, 100, 1000.  Any raised read error
makes the whole call return the failure tuple (`None, ..., None`),
modelled as `none`. -/
def read_modbus_data_async (instrument : ℕ → Option ℕ) : Option Reading := do
  let voltage : ℚ := (← instrument 0 : ℕ) / 100
  let current : ℚ := (← instrument 2 : ℕ) / 100
  let power_factor : ℚ := (← instrument 4 : ℕ) / 1000
  let power : ℚ := (← instrument 6 : ℕ) / 100
  let energy : ℚ := (← instrument 8 : ℕ) / 1000
  return ⟨voltage, current, power_factor, power, energy⟩

/-- `detect_anomaly(voltage, current, power, config)`: starts from 0 and
sets the flag to 1 on each of the three threshold checks. -/
def detect_anomaly (voltage current power : ℚ) (config : Config) : ℕ :=
  let anomaly : ℕ := 0
  let anomaly : ℕ :=
    if voltage > config.anomaly_voltage_high ∨ voltage < config.anomaly_voltage_low
    then 1 else anomaly
  let anomaly : ℕ :=
    if current > config.anomaly_current_high then 1 else anomaly
  let anomaly : ℕ :=
    if power > config.anomaly_power_high then 1 else anomaly
  anomaly

/-- The call site of `detect_anomaly` in `update_dashboard` (line 94):
the classifier receives only the voltage, current and power fields of
the reading. -/
def classify_reading (r : Reading) (config : Config) : ℕ :=
  detect_anomaly r.voltage r.current r.power config

/-- `store_data(conn, ...)`: `INSERT INTO readings VALUES (...)`.
The `timestamp TEXT PRIMARY KEY` constraint makes the insert raise an
integrity error when the timestamp already exists, in which case the
table is unchanged; otherwise the row is appended and committed.
Returns (outcome, table after the call). -/
def store_data (conn : List Row) (r : Row) : Except String Unit × List Row :=
  if conn.any (fun row => row.timestamp == r.timestamp) then
    (Except.error "UNIQUE constraint failed: readings.timestamp", conn)
  else
    (Except.ok (), conn ++ [r])

/-- Descending-timestamp comparison used by
`ORDER BY timestamp DESC` (SQLite TEXT compares lexicographically). -/
def tsDesc (a b : Row) : Prop := b.timestamp ≤ a.timestamp

instance : DecidableRel tsDesc :=
  fun a b => inferInstanceAs (Decidable (b.timestamp ≤ a.timestamp))

/-- `SELECT * FROM readings ORDER BY timestamp DESC LIMIT n`
(line 109 of the source, with `n = 10`). -/
def recent_query (conn : List Row) (n : ℕ) : List Row :=
  (List.insertionSort tsDesc conn).take n

/-- The same `SELECT` as a state transaction: a read-only query returns
its rows and leaves the table as it was. -/
def recent_query_tx (conn : List Row) (n : ℕ) : List Row × List Row :=
  (recent_query conn n, conn)

/-- Observable outcome of one pass of the `while True` body of
`update_dashboard`: the table afterwards, what was handed to the display
surface (`none` when the publish block was skipped), and the argument of
the final `asyncio.sleep`. -/
structure CycleResult where
  conn : List Row
  published : Option (Reading × ℕ × List Row)
  sleep : ℚ
deriving Repr, DecidableEq

/-- One iteration of the `update_dashboard` loop body (lines 89–118):
read the device; on failure (`voltage is None`) skip classification,
persistence and publication; on success classify, insert the row
(an uncaught integrity error propagates as `Except.error`), query the
10 most recent rows and publish; in either surviving case sleep for
`config['refresh_rate']`. -/
def update_dashboard_cycle (config : Config) (instrument : ℕ → Option ℕ)
    (timestamp : String) (conn : List Row) : Except String CycleResult :=
  match read_modbus_data_async instrument with
  | none => Except.ok ⟨conn, none, config.refresh_rate⟩
  | some r =>
    let anomaly := detect_anomaly r.voltage r.current r.power config
    let result :=
      store_data conn ⟨timestamp, r.voltage, r.current, r.power_factor, r.power, r.energy, anomaly⟩
    match result.1 with
    | Except.error e => Except.error e
    | Except.ok _ =>
      Except.ok ⟨result.2, some (r, anomaly, recent_query result.2 10), config.refresh_rate⟩

/-- Sequential `store_data` inserts (as successive successful cycles
perform them); the first integrity error aborts the sequence. -/
def append_all (conn : List Row) (rs : List Row) : Except String (List Row) :=
  match rs with
  | [] => Except.ok conn
  | r :: rest =>
    match store_data conn r with
    | (Except.ok _, conn2) => append_all conn2 rest
    | (Except.error e, _) => Except.error e

/-- The threshold configuration of the end-to-end scenario in §8 of the
spec (refresh rate chosen as 5 seconds). -/
def config_demo : Config := ⟨250, 200, 10, 2000, 5⟩

/-- A device whose registers 0, 2, 4, 6, 8 hold the raw values of the
end-to-end scenario in §8 of the spec. -/
def instrument_demo : ℕ → Option ℕ := fun addr =>
  if addr = 0 then some 23500
  else if addr = 2 then some 500
  else if addr = 4 then some 950
  else if addr = 6 then some 220000
  else if addr = 8 then some 1500
  else none

/-- The Reading the end-to-end scenario expects. -/
def reading_demo : Reading := ⟨235, 5, 0.95, 2200, 1.5⟩

/-- The single row the end-to-end scenario leaves in the store. -/
def row_demo : Row := ⟨"2024-01-01 00:00:00", 235, 5, 0.95, 2200, 1.5, 1⟩

/-- A stored row with timestamp "a" (for concrete witnesses). -/
def row_a : Row := ⟨"a", 1, 1, 1, 1, 1, 0⟩

/-- A different row that reuses timestamp "a". -/
def row_a2 : Row := ⟨"a", 2, 2, 2, 2, 2, 1⟩

/-- A stored row with timestamp "b". -/
def row_b : Row := ⟨"b", 3, 3, 3, 3, 3, 0⟩

end EnergyDashboard

namespace EnergyDashboard

/-- The three sequential checks of `detect_anomaly` collapse to one
disjunction. -/
lemma detect_anomaly_eq_ite (v c p : ℚ) (config : Config) :
    detect_anomaly v c p config =
      if v > config.anomaly_voltage_high ∨ v < config.anomaly_voltage_low ∨
          c > config.anomaly_current_high ∨ p > config.anomaly_power_high
      then 1 else 0 := by
  unfold detect_anomaly
  split_ifs <;> tauto

/-- C1: `detect_anomaly` flags a reading exactly when one of the strict
comparisons `voltage > voltage_high`, `voltage < voltage_low`,
`current > current_high`, `power > power_high` holds, and returns 0
exactly otherwise — so a reading sitting exactly on the thresholds is
not flagged and any strict exceedance is. -/
theorem detect_anomaly_iff_strict (v c p : ℚ) (config : Config) :
    (detect_anomaly v c p config = 1 ↔
      (v > config.anomaly_voltage_high ∨ v < config.anomaly_voltage_low ∨
        c > config.anomaly_current_high ∨ p > config.anomaly_power_high)) ∧
    (detect_anomaly v c p config = 0 ↔
      ¬(v > config.anomaly_voltage_high ∨ v < config.anomaly_voltage_low ∨
        c > config.anomaly_current_high ∨ p > config.anomaly_power_high)) := by
  rw [detect_anomaly_eq_ite]
  split_ifs with h <;> simp [h]

/-- C2: whenever the five register reads return raw values r0, r2, r4,
r6, r8, the resulting Reading's fields are exactly the raw values
divided by 100, 100, 1000, 100, 1000. -/
theorem read_modbus_scaling (r0 r2 r4 r6 r8 : ℕ) (instrument : ℕ → Option ℕ)
    (h0 : instrument 0 = some r0) (h2 : instrument 2 = some r2)
    (h4 : instrument 4 = some r4) (h6 : instrument 6 = some r6)
    (h8 : instrument 8 = some r8) :
    read_modbus_data_async instrument =
      some ⟨(r0 : ℚ) / 100, (r2 : ℚ) / 100, (r4 : ℚ) / 1000,
            (r6 : ℚ) / 100, (r8 : ℚ) / 1000⟩ := by
  simp [read_modbus_data_async, h0, h2, h4, h6, h8]

/-- Witness for C2: the demo device's raw values scale as claimed. -/
theorem read_modbus_scaling_witness :
    read_modbus_data_async instrument_demo =
      some ⟨(23500 : ℚ) / 100, (500 : ℚ) / 100, (950 : ℚ) / 1000,
            (220000 : ℚ) / 100, (1500 : ℚ) / 1000⟩ :=
  read_modbus_scaling 23500 500 950 220000 1500 instrument_demo rfl rfl rfl rfl rfl

/-- C3: the device read is all-or-nothing — it yields a Reading exactly
when all five register reads succeed, and any single failure makes the
whole call fail with no partial Reading. -/
theorem read_modbus_all_or_nothing (instrument : ℕ → Option ℕ) :
    (read_modbus_data_async instrument).isSome = true ↔
      ((instrument 0).isSome = true ∧ (instrument 2).isSome = true ∧
       (instrument 4).isSome = true ∧ (instrument 6).isSome = true ∧
       (instrument 8).isSome = true) := by
  unfold read_modbus_data_async
  cases h0 : instrument 0 <;> cases h2 : instrument 2 <;> cases h4 : instrument 4 <;>
    cases h6 : instrument 6 <;> cases h8 : instrument 8 <;>
      simp [h0, h2, h4, h6, h8]

/-- C4: in a cycle whose device read fails, the body neither classifies,
persists nor publishes: the table is unchanged, nothing is handed to the
display, no exception escapes, and the loop sleeps for the configured
interval before the next cycle. -/
theorem device_failure_skips_cycle (config : Config) (instrument : ℕ → Option ℕ)
    (timestamp : String) (conn : List Row)
    (hfail : read_modbus_data_async instrument = none) :
    update_dashboard_cycle config instrument timestamp conn =
      Except.ok ⟨conn, none, config.refresh_rate⟩ := by
  unfold update_dashboard_cycle
  rw [hfail]

/-- Witness for C4: a device that always fails leaves an empty table
empty and publishes nothing. -/
theorem device_failure_skips_cycle_witness :
    update_dashboard_cycle config_demo (fun _ => none) "t" [] =
      Except.ok ⟨[], none, config_demo.refresh_rate⟩ :=
  device_failure_skips_cycle config_demo (fun _ => none) "t" [] rfl

/-- Inserting a row whose timestamp is below every row of a
descending-sorted list lands it at the end. -/
lemma orderedInsert_eq_append (a : Row) (l : List Row) (h : ∀ b ∈ l, ¬ tsDesc a b) :
    List.orderedInsert tsDesc a l = l ++ [a] := by
  induction l with
  | nil => rfl
  | cons b l ih =>
    rw [List.orderedInsert, if_neg (h b (List.mem_cons_self b l))]
    rw [ih (fun x hx => h x (List.mem_cons_of_mem b hx))]
    rfl

/-- Sorting a strictly-increasing-timestamp list by descending
timestamp reverses it. -/
lemma insertionSort_of_strict_incr (rs : List Row)
    (h : rs.Pairwise (fun a b => a.timestamp < b.timestamp)) :
    List.insertionSort tsDesc rs = rs.reverse := by
  induction rs with
  | nil => rfl
  | cons x xs ih =>
    rw [List.insertionSort, ih (List.Pairwise.of_cons h)]
    rw [orderedInsert_eq_append]
    · rw [List.reverse_cons]
    · intro b hb
      have hx : x.timestamp < b.timestamp :=
        (List.pairwise_cons.mp h).1 b (List.mem_reverse.mp hb)
      exact fun hle => absurd hle (not_le.mpr hx)

/-- Appending rows whose timestamps are fresh (pairwise distinct and
absent from the table) succeeds and concatenates them in order. -/
lemma append_all_ok (rs : List Row) (conn : List Row)
    (hdisj : ∀ r ∈ rs, ∀ c ∈ conn, c.timestamp ≠ r.timestamp)
    (hpw : rs.Pairwise (fun a b => a.timestamp ≠ b.timestamp)) :
    append_all conn rs = Except.ok (conn ++ rs) := by
  induction rs generalizing conn with
  | nil => simp [append_all]
  | cons r rest ih =>
    have hnone : conn.any (fun row => row.timestamp == r.timestamp) = false := by
      rw [List.any_eq_false]
      intro row hrow
      simp only [beq_iff_eq]
      exact hdisj r (List.mem_cons_self r rest) row hrow
    rw [append_all]
    unfold store_data
    rw [hnone]
    simp only [Bool.false_eq_true, if_false]
    rw [ih (conn ++ [r])]
    · rw [List.append_assoc]
      rfl
    · intro s hs c hc
      rcases List.mem_append.mp hc with hc | hc
      · exact hdisj s (List.mem_cons_of_mem r hs) c hc
      · rcases List.mem_singleton.mp hc with rfl
        exact (List.pairwise_cons.mp hpw).1 s hs
    · exact List.Pairwise.of_cons hpw

/-- C5: appending k Readings with strictly increasing timestamps to an
initially empty store succeeds, and the recent-history query with limit
k returns them newest-first (the reverse of insertion order). -/
theorem append_then_recent_newest_first (rs : List Row)
    (h : rs.Pairwise (fun a b => a.timestamp < b.timestamp)) :
    append_all [] rs = Except.ok rs ∧ recent_query rs rs.length = rs.reverse := by
  constructor
  · have := append_all_ok rs [] (by simp) (h.imp fun hab => ne_of_lt hab)
    simpa using this
  · unfold recent_query
    rw [insertionSort_of_strict_incr rs h, ← List.length_reverse]
    exact List.take_length rs.reverse

/-- Timestamp "a" sorts before timestamp "b". -/
lemma row_a_lt_row_b : row_a.timestamp < row_b.timestamp := by
  rw [String.lt_iff_toList_lt]
  decide

/-- Witness for C5: two rows with timestamps "a" < "b" come back as
[b-row, a-row]. -/
theorem append_then_recent_newest_first_witness :
    append_all [] [row_a, row_b] = Except.ok [row_a, row_b] ∧
      recent_query [row_a, row_b] [row_a, row_b].length = [row_a, row_b].reverse :=
  append_then_recent_newest_first [row_a, row_b]
    (List.pairwise_cons.mpr
      ⟨fun b hb => by rcases List.mem_singleton.mp hb with rfl; exact row_a_lt_row_b,
        List.pairwise_cons.mpr ⟨fun b hb => absurd hb (List.not_mem_nil b), List.Pairwise.nil⟩⟩)

/-- C6: inserting a row whose timestamp already exists in the table
fails with the primary-key integrity error and leaves the table exactly
as it was — the existing row is not overwritten. -/
theorem duplicate_timestamp_rejected (conn : List Row) (r : Row)
    (h : ∃ row ∈ conn, row.timestamp = r.timestamp) :
    (store_data conn r).1 =
        Except.error "UNIQUE constraint failed: readings.timestamp" ∧
      (store_data conn r).2 = conn := by
  obtain ⟨row, hrow, hts⟩ := h
  have hdup : conn.any (fun row => row.timestamp == r.timestamp) = true := by
    simp only [List.any_eq_true, beq_iff_eq]
    exact ⟨row, hrow, hts⟩
  unfold store_data
  rw [hdup]
  exact ⟨rfl, rfl⟩

/-- Witness for C6: re-inserting timestamp "a" (with different field
values) errors and keeps the original row. -/
theorem duplicate_timestamp_rejected_witness :
    (store_data [row_a] row_a2).1 =
        Except.error "UNIQUE constraint failed: readings.timestamp" ∧
      (store_data [row_a] row_a2).2 = [row_a] :=
  duplicate_timestamp_rejected [row_a] row_a2 ⟨row_a, List.mem_singleton_self row_a, rfl⟩

/-- C7: end-to-end scenario of §8 — raw registers
(23500, 500, 950, 220000, 1500) under thresholds
{250, 200, 10, 2000} give Reading (235 V, 5 A, 0.95 pf, 2200 W,
1.5 kWh); the cycle classifies it anomalous because power 2200 > 2000
and leaves the initially empty store with exactly one row whose anomaly
column is 1. -/
theorem end_to_end_scenario :
    update_dashboard_cycle config_demo instrument_demo "2024-01-01 00:00:00" [] =
        Except.ok ⟨[row_demo], some (reading_demo, 1, [row_demo]), 5⟩ ∧
      reading_demo = ⟨235, 5, 0.95, 2200, 1.5⟩ ∧
      config_demo.anomaly_power_high < reading_demo.power ∧
      classify_reading reading_demo config_demo = 1 ∧
      row_demo.anomaly = 1 := by
  refine ⟨?_, rfl, by norm_num [config_demo, reading_demo], ?_, rfl⟩
  · norm_num [update_dashboard_cycle, read_modbus_data_async, store_data, recent_query,
      detect_anomaly, config_demo, instrument_demo, reading_demo, row_demo]
  · norm_num [classify_reading, detect_anomaly, config_demo, reading_demo]

/-- C8: the recent-history query is read-only and idempotent — it
leaves the table unchanged, and a second call with no intervening
append returns the same ordered rows. -/
theorem recent_query_idempotent_readonly (conn : List Row) (n : ℕ) :
    (recent_query_tx conn n).2 = conn ∧
      (recent_query_tx ((recent_query_tx conn n).2) n).1 = (recent_query_tx conn n).1 :=
  ⟨rfl, rfl⟩

/-- C9: the classifier reads only voltage, current and power — two
readings agreeing on those three fields classify identically whatever
their power_factor and energy. -/
theorem classify_ignores_pf_energy (r1 r2 : Reading) (config : Config)
    (hv : r1.voltage = r2.voltage) (hc : r1.current = r2.current)
    (hp : r1.power = r2.power) :
    classify_reading r1 config = classify_reading r2 config := by
  unfold classify_reading
  rw [hv, hc, hp]

/-- Witness for C9: two readings differing only in power_factor and
energy get the same flag. -/
theorem classify_ignores_pf_energy_witness :
    classify_reading ⟨235, 5, 0.95, 2200, 1.5⟩ config_demo =
      classify_reading ⟨235, 5, 0.5, 2200, 99⟩ config_demo :=
  classify_ignores_pf_energy ⟨235, 5, 0.95, 2200, 1.5⟩ ⟨235, 5, 0.5, 2200, 99⟩
    config_demo rfl rfl rfl

/-- `store_data` either leaves the table unchanged or appends exactly
the given row at the end. -/
lemma store_data_snd (conn : List Row) (r : Row) :
    (store_data conn r).2 = conn ∨ (store_data conn r).2 = conn ++ [r] := by
  unfold store_data
  split_ifs <;> simp

/-- C10: `detect_anomaly` only ever returns 0 or 1, so every row a
cycle leaves in the store has its anomaly column equal to 0 or 1,
an invariant every cycle preserves. -/
theorem anomaly_zero_or_one_invariant (config : Config) (instrument : ℕ → Option ℕ)
    (timestamp : String) (conn : List Row) (out : CycleResult)
    (hinv : ∀ row ∈ conn, row.anomaly = 0 ∨ row.anomaly = 1)
    (hstep : update_dashboard_cycle config instrument timestamp conn = Except.ok out) :
    (∀ v c p : ℚ, detect_anomaly v c p config = 0 ∨ detect_anomaly v c p config = 1) ∧
      ∀ row ∈ out.conn, row.anomaly = 0 ∨ row.anomaly = 1 := by
  have hz : ∀ v c p : ℚ, detect_anomaly v c p config = 0 ∨ detect_anomaly v c p config = 1 := by
    intro v c p
    rw [detect_anomaly_eq_ite]
    split_ifs <;> simp
  refine ⟨hz, ?_⟩
  unfold update_dashboard_cycle at hstep
  cases hread : read_modbus_data_async instrument with
  | none =>
    rw [hread] at hstep
    simp only [Except.ok.injEq] at hstep
    rw [← hstep]
    exact hinv
  | some r =>
    rw [hread] at hstep
    simp only at hstep
    cases hsd : (store_data conn
        ⟨timestamp, r.voltage, r.current, r.power_factor, r.power, r.energy,
          detect_anomaly r.voltage r.current r.power config⟩).1 with
    | error e =>
      rw [hsd] at hstep
      exact absurd hstep (by simp)
    | ok u =>
      rw [hsd] at hstep
      simp only [Except.ok.injEq] at hstep
      rw [← hstep]
      intro row hrow
      rcases store_data_snd conn
          ⟨timestamp, r.voltage, r.current, r.power_factor, r.power, r.energy,
            detect_anomaly r.voltage r.current r.power config⟩ with hc | hc
      · rw [hc] at hrow
        exact hinv row hrow
      · rw [hc] at hrow
        rcases List.mem_append.mp hrow with hrow | hrow
        · exact hinv row hrow
        · rcases List.mem_singleton.mp hrow with rfl
          exact hz r.voltage r.current r.power

/-- Witness for C10: the empty-table invariant is preserved by a cycle
whose read fails. -/
theorem anomaly_zero_or_one_invariant_witness :
    (∀ v c p : ℚ, detect_anomaly v c p config_demo = 0 ∨
        detect_anomaly v c p config_demo = 1) ∧
      ∀ row ∈ (CycleResult.mk [] none 5).conn, row.anomaly = 0 ∨ row.anomaly = 1 :=
  anomaly_zero_or_one_invariant config_demo (fun _ => none) "t" [] ⟨[], none, 5⟩
    (by simp) rfl

end EnergyDashboard
